import Mathlib

/-!
# Verification of the MKV → MP4 batch converter

Shallow embedding of `MKV to MP4/mkv_converter.py`: the probing helpers,
the H.264 level selector, the ffmpeg command construction, the
NVENC-failure fallback logic of `convert_mkv_to_mp4`, the file discovery
of `find_mkv_files`, and the batch loop of `main`.

Subprocess interaction is modelled by passing the outcome of the external
call (its captured stdout/stderr, or the exception it raised) as an
explicit argument; everything else is translated directly from the Python
source.
-/

namespace MkvConverter

/-- `hasSubstring hay needle` models Python's `needle in hay` on the
character lists of the two strings. -/
def hasSubstring : List Char → List Char → Bool
  | hay, needle =>
    needle.isPrefixOf hay ||
      match hay with
      | [] => false
      | _ :: t => hasSubstring t needle

/-- Python `sub in s` for strings. -/
def strContains (s sub : String) : Bool :=
  hasSubstring s.toList sub.toList

/-- The three encoder identifiers accepted by `convert_mkv_to_mp4`
(`'nvenc_h264'`, `'nvenc_av1'`, anything else is treated as CPU; the
script only ever passes `'cpu'` for the latter). -/
inductive Encoder
  | nvenc_h264
  | nvenc_av1
  | cpu
deriving DecidableEq, Repr

/-- The Python string naming each encoder. -/
def encoderName : Encoder → String
  | .nvenc_h264 => "nvenc_h264"
  | .nvenc_av1 => "nvenc_av1"
  | .cpu => "cpu"

/-- Models `encoder.startswith('nvenc')` (line 283). -/
def startsWithNvenc (e : Encoder) : Bool :=
  "nvenc".toList.isPrefixOf (encoderName e).toList

/-- The fixed NVENC failure markers (lines 274–281). -/
def nvenc_failures : List String :=
  ["10 bit encode not supported",
   "No capable devices found",
   "InitializeEncoder failed",
   "invalid param",
   "Cannot load nvcuda.dll",
   "NVENC not available"]

/-- Models `any(fail in error_msg for fail in nvenc_failures)` (line 283). -/
def isNvencFailureMsg (error_msg : String) : Bool :=
  nvenc_failures.any (fun fail => strContains error_msg fail)

/-- Outcome of one ffmpeg encode subprocess: exit 0, or a
`CalledProcessError` carrying the captured stderr text. -/
inductive RunResult
  | success
  | failure (stderr : String)
deriving DecidableEq, Repr

/-- Recursion measure for the fallback recursion: the CPU encoder never
recurses. -/
def encoderRank : Encoder → Nat
  | .cpu => 0
  | _ => 1

/-- Lines 244–295 of `convert_mkv_to_mp4`, abstracted over the encode
subprocess outcome `run` for each encoder. Returns the boolean result of
the Python function together with the list of encoders actually invoked,
in order (the attempt trace). On failure, if the encoder name starts with
`nvenc` and the diagnostic contains a marker, the function re-invokes
itself with the `cpu` encoder (line 288); otherwise the error is
re-raised (line 290) and the outer handler returns `False` (line 295). -/
def convert_mkv_to_mp4 (run : Encoder → RunResult) (encoder : Encoder) :
    Bool × List Encoder :=
  match run encoder with
  | .success => (true, [encoder])
  | .failure error_msg =>
    if h : startsWithNvenc encoder = true ∧ isNvencFailureMsg error_msg = true then
      let r := convert_mkv_to_mp4 run .cpu
      (r.1, encoder :: r.2)
    else
      (false, [encoder])
termination_by encoderRank encoder
decreasing_by
  cases encoder with
  | nvenc_h264 => simp [encoderRank]
  | nvenc_av1 => simp [encoderRank]
  | cpu => simp [startsWithNvenc, encoderName] at h

/-- `get_appropriate_h264_level` (lines 105–125): H.264 level from the
probed resolution; `None` for either dimension yields the safe default. -/
def get_appropriate_h264_level (width height : Option Int) : String :=
  match width, height with
  | some w, some h =>
    let pixels := w * h
    if pixels ≤ 152064 then "1.3"
    else if pixels ≤ 345600 then "3.0"
    else if pixels ≤ 921600 then "3.1"
    else if pixels ≤ 2073600 then "4.0"
    else if pixels ≤ 8294400 then "5.1"
    else "5.2"
  | _, _ => "4.0"

/-- The per-encoder video arguments appended to the base command
(lines 156–218), split on the probed 10-bit flag. -/
def videoArgs (encoder : Encoder) (is_10bit : Bool) (h264_level : String) :
    List String :=
  match encoder with
  | .nvenc_h264 =>
    if is_10bit then
      ["-c:v", "h264_nvenc", "-profile:v", "high", "-level", h264_level,
       "-pix_fmt", "yuv420p", "-preset", "p4", "-tune", "hq"]
    else
      ["-c:v", "h264_nvenc", "-profile:v", "high", "-level", h264_level,
       "-preset", "p4", "-tune", "hq"]
  | .nvenc_av1 =>
    ["-c:v", "av1_nvenc", "-preset", "p4", "-tune", "hq"] ++
      (if is_10bit then ["-pix_fmt", "yuv420p10le"] else [])
  | .cpu =>
    ["-c:v", "libx264", "-profile:v", "high", "-level", h264_level] ++
      (if is_10bit then ["-pix_fmt", "yuv420p"] else [])

/-- The per-encoder `quality_settings` dictionary (lines 178–218). -/
def quality_settings (encoder : Encoder) : List (String × List String) :=
  match encoder with
  | .nvenc_h264 =>
    [("fast", ["-cq", "28", "-b:v", "0"]),
     ("medium", ["-cq", "23", "-b:v", "0"]),
     ("high", ["-cq", "18", "-b:v", "0"])]
  | .nvenc_av1 =>
    [("fast", ["-cq", "32", "-b:v", "0"]),
     ("medium", ["-cq", "28", "-b:v", "0"]),
     ("high", ["-cq", "24", "-b:v", "0"])]
  | .cpu =>
    [("fast", ["-preset", "fast", "-crf", "28"]),
     ("medium", ["-preset", "medium", "-crf", "23"]),
     ("high", ["-preset", "slow", "-crf", "18"])]

/-- Python `dict.get(key, default)` on an association list. -/
def dictGet (table : List (String × List String)) (key : String)
    (default : List String) : List String :=
  match table.find? (fun p => p.1 == key) with
  | some p => p.2
  | none => default

/-- `quality_settings.get(quality, quality_settings['medium'])`
(line 221). -/
def qualityArgs (encoder : Encoder) (quality : String) : List String :=
  dictGet (quality_settings encoder) quality
    (dictGet (quality_settings encoder) "medium" [])

/-- The fixed audio/container arguments (lines 224–231). -/
def audioFixedArgs : List String :=
  ["-c:a", "aac", "-b:a", "192k", "-ac", "2", "-ar", "48000",
   "-movflags", "+faststart", "-map", "0:v:0"]

/-- The audio stream mapping (lines 234–240): the first audio stream when
one was probed, an optional mapping otherwise. -/
def audioMapArgs (hasAudio : Bool) : List String :=
  if hasAudio then ["-map", "0:a:0"] else ["-map", "0:a?"]

/-- The full ffmpeg command assembled by `convert_mkv_to_mp4`
(lines 154–242). -/
def buildCmd (input_file output_file : String) (encoder : Encoder)
    (is_10bit : Bool) (h264_level quality : String) (hasAudio : Bool) :
    List String :=
  ["ffmpeg", "-i", input_file] ++
    videoArgs encoder is_10bit h264_level ++
    qualityArgs encoder quality ++
    audioFixedArgs ++
    audioMapArgs hasAudio ++
    ["-y", output_file]

/-- The values passed with a `-pix_fmt` flag in a command line: every
element immediately following an occurrence of `"-pix_fmt"`. -/
def pixFmtArgs : List String → List String
  | [] => []
  | [_] => []
  | a :: b :: rest =>
    if a = "-pix_fmt" then b :: pixFmtArgs (b :: rest)
    else pixFmtArgs (b :: rest)

/-- Python `s.strip()` on a character list: drop leading and trailing
whitespace. -/
def pyStripChars (l : List Char) : List Char :=
  ((l.dropWhile Char.isWhitespace).reverse.dropWhile
    Char.isWhitespace).reverse

/-- Python `s.strip()`. -/
def pyStrip (s : String) : String := ⟨pyStripChars s.toList⟩

/-- Python `s.split(sep)` for a single-character separator: splitting the
empty string yields one empty field. -/
def splitChars (sep : Char) : List Char → List (List Char)
  | [] => [[]]
  | c :: rest =>
    let r := splitChars sep rest
    if c = sep then [] :: r
    else
      match r with
      | [] => [[c]]
      | h :: t => (c :: h) :: t

/-- The fixed 10-bit pixel-format markers (line 84). -/
def tenBitMarkers : List String := ["10le", "10be", "p010", "yuv420p10"]

/-- `get_video_bit_depth` (lines 73–89), abstracted over the ffprobe
outcome: `some out` is the captured stdout of a successful probe, `none`
is a `CalledProcessError`. Returns the `(is_10bit, pix_fmt)` pair of the
Python function; the failure branch returns `(False, "unknown")`. -/
def get_video_bit_depth (probe : Option String) : Bool × String :=
  match probe with
  | some out =>
    let pix_fmt := pyStrip out
    (tenBitMarkers.any (fun fmt => strContains pix_fmt fmt), pix_fmt)
  | none => (false, "unknown")

/-- Outcome of an ffprobe subprocess call, as the Python code can observe
it: a successful run with captured stdout, a non-zero exit
(`subprocess.CalledProcessError`), or a missing executable
(`FileNotFoundError` — the exception `check_ffmpeg` at line 40 names as a
possible outcome of `subprocess.run`). -/
inductive ProcOutcome
  | ok (stdout : String)
  | processError (stderr : String)
  | fileNotFound
deriving DecidableEq, Repr

/-- A Python exception escaping to the caller. -/
inductive PyExc
  | fileNotFoundError
deriving DecidableEq, Repr

/-- Python `int(s)`: `some` the parsed integer, `none` when `int` raises
`ValueError`. -/
def pyInt (s : String) : Option Int := s.toInt?

/-- `get_video_resolution` (lines 57–71), abstracted over the ffprobe
outcome. `Except.ok` is a normal return (`some (w, h)` or the
`(None, None)` pair, modelled as `none`); `Except.error` is an exception
propagating out of the function. The `except` clause at line 70 catches
only `CalledProcessError` and `ValueError`. -/
def get_video_resolution (probe : ProcOutcome) :
    Except PyExc (Option (Int × Int)) :=
  match probe with
  | .ok out =>
    match (splitChars ',' (pyStripChars out.toList)).map (fun l => String.mk l) with
    | [a, b] =>
      match pyInt a, pyInt b with
      | some width, some height => .ok (some (width, height))
      | _, _ => .ok none
    | _ => .ok none
  | .processError _ => .ok none
  | .fileNotFound => .error .fileNotFoundError

/-- `find_mkv_files` (lines 297–304), abstracted over the `os.walk`
output: a list of `(root, files)` entries, each file name a character
list. Collects `root/file` for every file whose lowercased name ends in
`.mkv`. -/
def find_mkv_files (walk : List (String × List (List Char))) :
    List (String × List Char) :=
  walk.flatMap (fun entry =>
    (entry.2.filter (fun file =>
      (".mkv".toList).isSuffixOf (file.map Char.toLower))).map
      (fun file => (entry.1, file)))

/-- One discovered file in the batch loop of `main` (lines 468–489),
carrying the two facts the loop branches on: whether the derived output
path already exists, and whether `convert_mkv_to_mp4` returns `True` for
it. -/
structure FileSpec where
  name : String
  destExists : Bool
  convertOk : Bool
deriving DecidableEq, Repr

/-- The batch loop of `main` (lines 465–489): the
`(converted_count, failed_count)` counters together with the list of
files for which `convert_mkv_to_mp4` was invoked, in order. A file whose
output path exists is skipped by `continue` before any invocation. -/
def runBatch : List FileSpec → Nat × Nat × List FileSpec
  | [] => (0, 0, [])
  | f :: rest =>
    if f.destExists then runBatch rest
    else
      let r := runBatch rest
      if f.convertOk then (r.1 + 1, r.2.1, f :: r.2.2)
      else (r.1, r.2.1 + 1, f :: r.2.2)

/-- The final tally logged by `main` (lines 492–494): exactly two labelled
counters, taken from the two counter variables of the loop. -/
def summaryCounters (converted_count failed_count : Nat) :
    List (String × Nat) :=
  [("Successfully converted", converted_count),
   ("Failed conversions", failed_count)]

/-- The batch summary for a list of discovered files. -/
def batchSummary (files : List FileSpec) : List (String × Nat) :=
  summaryCounters (runBatch files).1 (runBatch files).2.1

/-- The return value of `main` (lines 402–496), abstracted over the
environment: whether the input directory exists (line 428), whether
ffmpeg is available (line 445), and the discovered files. An empty
discovery returns 0 (line 452); otherwise the exit status is 0 exactly
when `failed_count == 0` (line 496). -/
def main (dirExists ffmpegOk : Bool) (files : List FileSpec) : Nat :=
  if dirExists = false then 1
  else if ffmpegOk = false then 1
  else if files = [] then 0
  else if (runBatch files).2.1 = 0 then 0 else 1

/-! ## Theorems -/

/-- C3: For all pixel counts `p = width * height`, the H.264 level
selector returns "1.3" iff `p ≤ 152064`, "3.0" iff `152064 < p ≤ 345600`,
"3.1" iff `345600 < p ≤ 921600`, "4.0" iff `921600 < p ≤ 2073600`,
"5.1" iff `2073600 < p ≤ 8294400`, "5.2" iff `p > 8294400`, and returns
"4.0" whenever width or height is unknown. -/
theorem C3_h264_level_buckets :
    (∀ w h : Int,
      (get_appropriate_h264_level (some w) (some h) = "1.3" ↔
        w * h ≤ 152064) ∧
      (get_appropriate_h264_level (some w) (some h) = "3.0" ↔
        152064 < w * h ∧ w * h ≤ 345600) ∧
      (get_appropriate_h264_level (some w) (some h) = "3.1" ↔
        345600 < w * h ∧ w * h ≤ 921600) ∧
      (get_appropriate_h264_level (some w) (some h) = "4.0" ↔
        921600 < w * h ∧ w * h ≤ 2073600) ∧
      (get_appropriate_h264_level (some w) (some h) = "5.1" ↔
        2073600 < w * h ∧ w * h ≤ 8294400) ∧
      (get_appropriate_h264_level (some w) (some h) = "5.2" ↔
        8294400 < w * h)) ∧
    (∀ x : Option Int,
      get_appropriate_h264_level none x = "4.0" ∧
      get_appropriate_h264_level x none = "4.0") := by
  constructor
  · intro w h
    simp only [get_appropriate_h264_level]
    split_ifs <;> simp_all <;> omega
  · intro x
    cases x <;> exact ⟨rfl, rfl⟩

/-- C3 witness: 1080p lands in level 4.0, and an unknown width falls back
to 4.0. -/
theorem C3_witness :
    get_appropriate_h264_level (some 1920) (some 1080) = "4.0" ∧
    get_appropriate_h264_level none (some 1080) = "4.0" :=
  ⟨(C3_h264_level_buckets.1 1920 1080).2.2.2.1.mpr ⟨by decide, by decide⟩,
    (C3_h264_level_buckets.2 (some 1080)).1⟩

/-- C9: For every quality argument outside `{fast, medium, high}`, the
quality-settings lookup is total and silently yields the `medium` tier's
backend-specific settings, so the constructed command is the one built
for `medium`. -/
theorem C9_unknown_quality_defaults_to_medium :
    ∀ (encoder : Encoder) (quality : String),
      quality ≠ "fast" → quality ≠ "medium" → quality ≠ "high" →
      qualityArgs encoder quality = qualityArgs encoder "medium" ∧
      ∀ (input_file output_file h264_level : String)
        (is_10bit hasAudio : Bool),
        buildCmd input_file output_file encoder is_10bit h264_level
            quality hasAudio =
          buildCmd input_file output_file encoder is_10bit h264_level
            "medium" hasAudio := by
  intro encoder quality h1 h2 h3
  have h1' : ("fast" == quality) = false :=
    beq_eq_false_iff_ne.mpr (Ne.symm h1)
  have h2' : ("medium" == quality) = false :=
    beq_eq_false_iff_ne.mpr (Ne.symm h2)
  have h3' : ("high" == quality) = false :=
    beq_eq_false_iff_ne.mpr (Ne.symm h3)
  have hq : qualityArgs encoder quality = qualityArgs encoder "medium" := by
    cases encoder <;>
      simp [qualityArgs, dictGet, quality_settings, List.find?, h1', h2', h3']
  refine ⟨hq, ?_⟩
  intro input_file output_file h264_level is_10bit hasAudio
  simp [buildCmd, hq]

/-- C9 witness: a concrete unknown tier (`"ultra"`) on the CPU backend
yields the medium settings. -/
theorem C9_witness :
    qualityArgs Encoder.cpu "ultra" = qualityArgs Encoder.cpu "medium" :=
  (C9_unknown_quality_defaults_to_medium Encoder.cpu "ultra"
    (by decide) (by decide) (by decide)).1

/-- C6: Bit-depth detection reports 10-bit exactly when the probed
pixel-format string contains one of the four fixed markers, reports 8-bit
otherwise (returning the probed format string itself), and returns the
distinguished `(false, "unknown")` pair when the probe cannot be run. -/
theorem C6_bit_depth_detection :
    get_video_bit_depth none = (false, "unknown") ∧
    ∀ s : String,
      ((get_video_bit_depth (some s)).1 = true ↔
        ∃ m ∈ tenBitMarkers, strContains (pyStrip s) m = true) ∧
      (get_video_bit_depth (some s)).2 = pyStrip s := by
  refine ⟨rfl, fun s => ⟨?_, rfl⟩⟩
  simp [get_video_bit_depth, List.any_eq_true]

/-- C6 witness: a 10-bit format is reported as 10-bit, an 8-bit one is
not, and an unqueryable probe yields `(false, "unknown")`. -/
theorem C6_witness :
    (get_video_bit_depth (some "yuv420p10le")).1 = true ∧
    (get_video_bit_depth (some "yuv420p")).1 = false ∧
    get_video_bit_depth none = (false, "unknown") := by
  refine ⟨(C6_bit_depth_detection.2 "yuv420p10le").1.mpr ?_, ?_,
    C6_bit_depth_detection.1⟩
  · exact ⟨"yuv420p10", by decide, by decide⟩
  · cases hb : (get_video_bit_depth (some "yuv420p")).1 with
    | false => rfl
    | true =>
      exact absurd ((C6_bit_depth_detection.2 "yuv420p").1.mp hb) (by decide)

/-- C8 counterexample: when the ffprobe executable itself is missing,
`subprocess.run` raises `FileNotFoundError`, which the `except` clause of
`get_video_resolution` (it catches only `CalledProcessError` and
`ValueError`) does not catch: the function raises instead of returning
`(None, None)`. -/
theorem C8_counterexample :
    get_video_resolution ProcOutcome.fileNotFound =
      Except.error PyExc.fileNotFoundError := rfl

/-- C8 (amended): For every probe outcome other than a missing ffprobe
executable, the resolution query returns normally — a `(width, height)`
pair or `(None, None)` — and a non-zero exit always yields
`(None, None)`. -/
theorem C8_resolution_degrades_without_raising :
    (∀ probe : ProcOutcome, probe ≠ ProcOutcome.fileNotFound →
      ∃ v : Option (Int × Int), get_video_resolution probe = Except.ok v) ∧
    (∀ stderr : String,
      get_video_resolution (ProcOutcome.processError stderr) =
        Except.ok none) := by
  refine ⟨fun probe hp => ?_, fun stderr => rfl⟩
  cases probe with
  | fileNotFound => exact absurd rfl hp
  | processError stderr => exact ⟨none, rfl⟩
  | ok out =>
    simp only [get_video_resolution]
    rcases hs : (splitChars ',' (pyStripChars out.toList)).map
        (fun l => String.mk l) with _ | ⟨a, _ | ⟨b, _ | ⟨c, tl⟩⟩⟩
    · exact ⟨none, rfl⟩
    · exact ⟨none, rfl⟩
    · rcases ha : pyInt a with _ | w <;> rcases hb : pyInt b with _ | h <;>
        simp [ha, hb]
    · exact ⟨none, rfl⟩

/-- C8 witness: a well-formed probe output parses to a pair, and a failed
probe degrades to `(None, None)`. -/
theorem C8_witness :
    (∃ v : Option (Int × Int),
      get_video_resolution (ProcOutcome.ok "1920,1080") = Except.ok v) ∧
    get_video_resolution (ProcOutcome.processError "boom") =
      Except.ok none :=
  ⟨C8_resolution_degrades_without_raising.1 (ProcOutcome.ok "1920,1080")
      (by decide),
    C8_resolution_degrades_without_raising.2 "boom"⟩

/-- C10: File discovery matches the `.mkv` extension case-insensitively:
every file, at any depth of the walk, whose name ends in any case variant
of `.mkv` is among the discovered candidates. -/
theorem C10_discovery_case_insensitive :
    ∀ (walk : List (String × List (List Char))) (root : String)
      (files : List (List Char)) (base variant : List Char),
      (root, files) ∈ walk →
      base ++ variant ∈ files →
      variant.map Char.toLower = ".mkv".toList →
      (root, base ++ variant) ∈ find_mkv_files walk := by
  intro walk root files base variant hw hf hv
  simp only [find_mkv_files, List.mem_flatMap]
  refine ⟨(root, files), hw, ?_⟩
  simp only [List.mem_map]
  refine ⟨base ++ variant, ?_, rfl⟩
  simp only [List.mem_filter]
  refine ⟨hf, ?_⟩
  rw [List.isSuffixOf_iff_suffix, List.map_append, hv]
  exact List.suffix_append _ _

/-- C10 witness: a walk entry containing `movie.MKV` two levels deep is
discovered. -/
theorem C10_witness :
    ("/videos/season one",
        ['m', 'o', 'v', 'i', 'e', '.', 'M', 'K', 'V']) ∈
      find_mkv_files
        [("/videos", []),
         ("/videos/season one",
          [['m', 'o', 'v', 'i', 'e', '.', 'M', 'K', 'V'],
           ['n', 'o', 't', 'e', 's', '.', 't', 'x', 't']])] :=
  C10_discovery_case_insensitive
    [("/videos", []),
     ("/videos/season one",
      [['m', 'o', 'v', 'i', 'e', '.', 'M', 'K', 'V'],
       ['n', 'o', 't', 'e', 's', '.', 't', 'x', 't']])]
    "/videos/season one"
    [['m', 'o', 'v', 'i', 'e', '.', 'M', 'K', 'V'],
     ['n', 'o', 't', 'e', 's', '.', 't', 'x', 't']]
    ['m', 'o', 'v', 'i', 'e'] ['.', 'M', 'K', 'V']
    (by decide) (by decide) (by decide)

/-- The CPU encoder name does not start with `nvenc`. -/
lemma startsWithNvenc_cpu : startsWithNvenc Encoder.cpu = false := by decide

/-- A successful CPU attempt returns `True` after exactly one
invocation. -/
lemma convert_cpu_success (run : Encoder → RunResult)
    (h : run Encoder.cpu = RunResult.success) :
    convert_mkv_to_mp4 run Encoder.cpu = (true, [Encoder.cpu]) := by
  rw [convert_mkv_to_mp4, h]

/-- A failed CPU attempt is terminal: it returns `False` after exactly one
invocation, whatever its diagnostic says. -/
lemma convert_cpu_failure (run : Encoder → RunResult) (m : String)
    (h : run Encoder.cpu = RunResult.failure m) :
    convert_mkv_to_mp4 run Encoder.cpu = (false, [Encoder.cpu]) := by
  rw [convert_mkv_to_mp4, h]
  simp [startsWithNvenc_cpu]

/-- The CPU encoder performs exactly one attempt. -/
lemma convert_cpu_attempts (run : Encoder → RunResult) :
    (convert_mkv_to_mp4 run Encoder.cpu).2 = [Encoder.cpu] := by
  cases h : run Encoder.cpu with
  | success => rw [convert_cpu_success run h]
  | failure m => rw [convert_cpu_failure run m h]

/-- C1: A failed encode attempt triggers a fallback re-attempt (a second
invocation) if and only if the encoder name starts with `nvenc` and the
diagnostic contains one of the six fixed markers; any other failure is
terminal for the file — `False` is returned after the single attempt. -/
theorem C1_fallback_iff_nvenc_marker :
    ∀ (run : Encoder → RunResult) (encoder : Encoder) (error_msg : String),
      run encoder = RunResult.failure error_msg →
      ((convert_mkv_to_mp4 run encoder).2.length = 2 ↔
        startsWithNvenc encoder = true ∧ isNvencFailureMsg error_msg = true) ∧
      (¬(startsWithNvenc encoder = true ∧ isNvencFailureMsg error_msg = true) →
        convert_mkv_to_mp4 run encoder = (false, [encoder])) := by
  intro run encoder error_msg hrun
  rw [convert_mkv_to_mp4, hrun]
  by_cases hc : startsWithNvenc encoder = true ∧ isNvencFailureMsg error_msg = true
  · simp only [hc, dif_pos, convert_cpu_attempts]
    simp [hc]
  · simp only [hc, dif_neg, not_false_iff]
    simp [hc]

/-- C1 witness: a hardware failure with the `No capable devices found`
marker falls back (two attempts); a hardware failure with an unrelated
diagnostic is terminal after one attempt. -/
theorem C1_witness :
    (convert_mkv_to_mp4
        (fun e => match e with
          | Encoder.cpu => RunResult.success
          | _ => RunResult.failure "No capable devices found")
        Encoder.nvenc_h264).2.length = 2 ∧
    convert_mkv_to_mp4 (fun _ => RunResult.failure "Disk quota exceeded")
        Encoder.nvenc_h264 =
      (false, [Encoder.nvenc_h264]) := by
  constructor
  · exact (C1_fallback_iff_nvenc_marker
      (fun e => match e with
        | Encoder.cpu => RunResult.success
        | _ => RunResult.failure "No capable devices found")
      Encoder.nvenc_h264 "No capable devices found" rfl).1.mpr
      ⟨by decide, by decide⟩
  · exact (C1_fallback_iff_nvenc_marker
      (fun _ => RunResult.failure "Disk quota exceeded")
      Encoder.nvenc_h264 "Disk quota exceeded" rfl).2 (by decide)

/-- C2: At most one fallback per source file: no run of the conversion
function makes more than two attempts, and when the fallback (CPU)
attempt itself fails — whatever its diagnostic — the result is a terminal
failure after exactly the two attempts. -/
theorem C2_at_most_one_fallback :
    ∀ (run : Encoder → RunResult) (encoder : Encoder),
      (convert_mkv_to_mp4 run encoder).2.length ≤ 2 ∧
      ∀ (m1 m2 : String),
        run encoder = RunResult.failure m1 →
        startsWithNvenc encoder = true →
        isNvencFailureMsg m1 = true →
        run Encoder.cpu = RunResult.failure m2 →
        convert_mkv_to_mp4 run encoder =
          (false, [encoder, Encoder.cpu]) := by
  intro run encoder
  constructor
  · cases h : run encoder with
    | success => rw [convert_mkv_to_mp4, h]; simp
    | failure m =>
      rw [convert_mkv_to_mp4, h]
      by_cases hc : startsWithNvenc encoder = true ∧ isNvencFailureMsg m = true
      · simp [hc, convert_cpu_attempts]
      · simp [hc]
  · intro m1 m2 h1 hs hm h2
    rw [convert_mkv_to_mp4, h1]
    simp only [hs, hm, and_self, dif_pos, convert_cpu_failure run m2 h2]

/-- C2 witness: with both the hardware attempt and the CPU fallback
failing on a hardware-incompatibility marker, exactly two attempts are
made and the failure is terminal. -/
theorem C2_witness :
    convert_mkv_to_mp4 (fun _ => RunResult.failure "NVENC not available")
        Encoder.nvenc_h264 =
      (false, [Encoder.nvenc_h264, Encoder.cpu]) :=
  (C2_at_most_one_fallback (fun _ => RunResult.failure "NVENC not available")
      Encoder.nvenc_h264).2
    "NVENC not available" "NVENC not available" rfl (by decide) (by decide)
    rfl

/-- Prepending an element preserves collected `-pix_fmt` values. -/
lemma pixFmtArgs_cons (a : String) (l : List String) (x : String)
    (h : x ∈ pixFmtArgs l) : x ∈ pixFmtArgs (a :: l) := by
  cases l with
  | nil => simp [pixFmtArgs] at h
  | cons b t =>
    simp only [pixFmtArgs]
    split
    · exact List.mem_cons_of_mem _ h
    · exact h

/-- The value right after a `-pix_fmt` flag is collected. -/
lemma pixFmtArgs_head (b : String) (r : List String) :
    b ∈ pixFmtArgs ("-pix_fmt" :: b :: r) := by
  simp [pixFmtArgs]

/-- The quality lookup always yields one of the backend's three tier
settings. -/
lemma qualityArgs_mem (encoder : Encoder) (quality : String) :
    qualityArgs encoder quality ∈
      (quality_settings encoder).map (fun p => p.2) := by
  unfold qualityArgs dictGet
  cases hf : (quality_settings encoder).find? (fun p => p.1 == quality) with
  | some p =>
    exact List.mem_map_of_mem _ (List.mem_of_find?_eq_some hf)
  | none =>
    cases encoder <;> simp [quality_settings, List.find?]

/-- The `-pix_fmt` values of the AV1 command for a 10-bit source: exactly
the 10-bit format (plus a stray collection when the input path is
literally `-pix_fmt`), never an 8-bit one. -/
lemma pixFmtArgs_av1 (input_file output_file h264_level quality : String)
    (hasAudio : Bool) :
    pixFmtArgs (buildCmd input_file output_file Encoder.nvenc_av1 true
        h264_level quality hasAudio) =
      if input_file = "-pix_fmt" then ["-c:v", "yuv420p10le"]
      else ["yuv420p10le"] := by
  have hq := qualityArgs_mem Encoder.nvenc_av1 quality
  simp only [quality_settings, List.map, List.mem_cons,
    List.not_mem_nil, or_false] at hq
  rcases hq with h | h | h <;> cases hasAudio <;>
    by_cases hi : input_file = "-pix_fmt" <;>
      simp [buildCmd, videoArgs, audioFixedArgs, audioMapArgs, h, hi,
        pixFmtArgs]

/-- C4: For every 10-bit input the hardware-H.264 and software-H.264
commands carry the 8-bit `-pix_fmt yuv420p` override, while the
hardware-AV1 command never carries an 8-bit override — its only pixel
format is the 10-bit `yuv420p10le`. -/
theorem C4_ten_bit_pix_fmt_override :
    ∀ (input_file output_file h264_level quality : String)
      (hasAudio : Bool),
      "yuv420p" ∈ pixFmtArgs (buildCmd input_file output_file
        Encoder.nvenc_h264 true h264_level quality hasAudio) ∧
      "yuv420p" ∈ pixFmtArgs (buildCmd input_file output_file
        Encoder.cpu true h264_level quality hasAudio) ∧
      "yuv420p10le" ∈ pixFmtArgs (buildCmd input_file output_file
        Encoder.nvenc_av1 true h264_level quality hasAudio) ∧
      "yuv420p" ∉ pixFmtArgs (buildCmd input_file output_file
        Encoder.nvenc_av1 true h264_level quality hasAudio) := by
  intro input_file output_file h264_level quality hasAudio
  refine ⟨?_, ?_, ?_, ?_⟩
  · simp only [buildCmd, videoArgs, if_true, List.cons_append,
      List.nil_append]
    apply pixFmtArgs_cons
    apply pixFmtArgs_cons
    apply pixFmtArgs_cons
    apply pixFmtArgs_cons
    apply pixFmtArgs_cons
    apply pixFmtArgs_cons
    apply pixFmtArgs_cons
    apply pixFmtArgs_cons
    apply pixFmtArgs_cons
    exact pixFmtArgs_head _ _
  · simp only [buildCmd, videoArgs, if_true, List.cons_append,
      List.nil_append, List.append_assoc]
    apply pixFmtArgs_cons
    apply pixFmtArgs_cons
    apply pixFmtArgs_cons
    apply pixFmtArgs_cons
    apply pixFmtArgs_cons
    apply pixFmtArgs_cons
    apply pixFmtArgs_cons
    apply pixFmtArgs_cons
    apply pixFmtArgs_cons
    exact pixFmtArgs_head _ _
  · rw [pixFmtArgs_av1]
    split <;> simp
  · rw [pixFmtArgs_av1]
    split <;> simp

/-- C4 witness: at a concrete 10-bit job, the hardware-H.264 command
carries the 8-bit override and the AV1 command does not. -/
theorem C4_witness :
    "yuv420p" ∈ pixFmtArgs (buildCmd "movie.mkv" "movie_converted.mp4"
      Encoder.nvenc_h264 true "4.0" "medium" true) ∧
    "yuv420p" ∉ pixFmtArgs (buildCmd "movie.mkv" "movie_converted.mp4"
      Encoder.nvenc_av1 true "4.0" "medium" true) :=
  ⟨(C4_ten_bit_pix_fmt_override "movie.mkv" "movie_converted.mp4"
      "4.0" "medium" true).1,
    (C4_ten_bit_pix_fmt_override "movie.mkv" "movie_converted.mp4"
      "4.0" "medium" true).2.2.2⟩

/-- Closed form of the batch loop: the converted counter counts the
non-skipped successes, the failed counter the non-skipped failures, and
the invoked files are exactly those whose destination did not exist. -/
lemma runBatch_spec (files : List FileSpec) :
    runBatch files =
      ((files.filter (fun f => !f.destExists && f.convertOk)).length,
       (files.filter (fun f => !f.destExists && !f.convertOk)).length,
       files.filter (fun f => !f.destExists)) := by
  induction files with
  | nil => rfl
  | cons f rest ih =>
    simp only [runBatch, ih]
    cases hd : f.destExists <;> cases hc : f.convertOk <;>
      simp [List.filter, hd, hc]

/-- The exit status of a batch run that got past the environment checks,
as a function of the failed-conversion filter. -/
lemma main_batch_eq (files : List FileSpec) :
    main true true files =
      if (files.filter (fun f => !f.destExists && !f.convertOk)).length = 0
      then 0 else 1 := by
  by_cases hfe : files = []
  · subst hfe; rfl
  · simp [main, hfe, runBatch_spec]

/-- C5 counterexample: a batch whose single file is skipped (its
destination exists) ends with loop state `(0, 0, [])` — no invocation,
both counters zero — and a final tally consisting of exactly the
converted and failed counters: the batch summary carries no skip counter
that could be incremented. -/
theorem C5_counterexample :
    runBatch [⟨"a.mkv", true, true⟩] = (0, 0, []) ∧
    batchSummary [⟨"a.mkv", true, true⟩] =
      [("Successfully converted", 0), ("Failed conversions", 0)] := by
  exact ⟨rfl, rfl⟩

/-- C5 (amended): A discovered file whose destination already exists is
short-circuited — the encode subprocess is never invoked for it (every
invoked file has a non-existing destination) and neither the converted
counter nor the failed counter counts it; only the per-file skip log line
records it, as the summary has no skip counter. -/
theorem C5_existing_destination_skipped :
    ∀ (files : List FileSpec),
      (∀ g ∈ (runBatch files).2.2, g.destExists = false) ∧
      (runBatch files).1 =
        (files.filter (fun f => !f.destExists && f.convertOk)).length ∧
      (runBatch files).2.1 =
        (files.filter (fun f => !f.destExists && !f.convertOk)).length := by
  intro files
  rw [runBatch_spec]
  refine ⟨?_, rfl, rfl⟩
  intro g hg
  have := (List.mem_filter.mp hg).2
  simpa using this

/-- C5 witness: in a two-file batch whose first file has an existing
destination, the invoked file has a fresh destination, one file is
counted converted and none failed. -/
theorem C5_witness :
    FileSpec.destExists ⟨"b.mkv", false, true⟩ = false ∧
    (runBatch [⟨"a.mkv", true, true⟩, ⟨"b.mkv", false, true⟩]).1 = 1 ∧
    (runBatch [⟨"a.mkv", true, true⟩, ⟨"b.mkv", false, true⟩]).2.1 = 0 := by
  have h := C5_existing_destination_skipped
    [⟨"a.mkv", true, true⟩, ⟨"b.mkv", false, true⟩]
  exact ⟨h.1 ⟨"b.mkv", false, true⟩ (by decide),
    h.2.1.trans (by decide), h.2.2.trans (by decide)⟩

/-- C7: Once the environment checks pass, the batch exit status is 0 iff
no discovered file failed (each was converted or skipped), and non-zero
iff at least one file failed. -/
theorem C7_exit_status :
    ∀ (files : List FileSpec),
      (main true true files = 0 ↔
        ∀ f ∈ files, f.destExists = true ∨ f.convertOk = true) ∧
      (main true true files ≠ 0 ↔
        ∃ f ∈ files, f.destExists = false ∧ f.convertOk = false) := by
  intro files
  have key : main true true files = 0 ↔
      ∀ f ∈ files, f.destExists = true ∨ f.convertOk = true := by
    rw [main_batch_eq]
    by_cases hc :
        (files.filter (fun f => !f.destExists && !f.convertOk)).length = 0
    · rw [if_pos hc]
      simp only [List.length_eq_zero, List.filter_eq_nil_iff] at hc
      constructor
      · intro _ f hf
        have hp := hc f hf
        revert hp
        cases f.destExists <;> cases f.convertOk <;> simp
      · intro _; rfl
    · rw [if_neg hc]
      simp only [List.length_eq_zero, List.filter_eq_nil_iff] at hc
      push_neg at hc
      obtain ⟨f, hf, hp⟩ := hc
      constructor
      · intro h; exact absurd h one_ne_zero
      · intro hall
        have hor := hall f hf
        revert hor hp
        cases f.destExists <;> cases f.convertOk <;> simp
  refine ⟨key, ?_⟩
  rw [Ne, key]
  push_neg
  simp [Bool.not_eq_true]

/-- C7 witness: the spec's three-file scenario (one success, one success
after fallback, one terminal failure) exits non-zero, and a batch where
every destination already exists exits 0. -/
theorem C7_witness :
    main true true
        [⟨"a.mkv", false, true⟩, ⟨"b.mkv", false, true⟩,
         ⟨"c.mkv", false, false⟩] ≠ 0 ∧
    main true true [⟨"a.mkv", true, false⟩, ⟨"b.mkv", true, true⟩] = 0 :=
  ⟨(C7_exit_status
      [⟨"a.mkv", false, true⟩, ⟨"b.mkv", false, true⟩,
       ⟨"c.mkv", false, false⟩]).2.mpr
      ⟨⟨"c.mkv", false, false⟩, by decide, by decide⟩,
    (C7_exit_status [⟨"a.mkv", true, false⟩, ⟨"b.mkv", true, true⟩]).1.mpr
      (by decide)⟩

end MkvConverter
